import Mathlib

/-!
Verification development for the pyopticaltable drawing library.

The single source module `pyopticaltable.py` is shallowly embedded here:
coordinates are real numbers, the matplotlib axes object is modelled as a
`Canvas` (the ordered list of drawing primitives issued so far), and each
element-placement method of `OpticalTable` becomes a function from a table
state to a new table state together with the value the Python method
returns.  Python exceptions (`ValueError`, failed `assert`) are modelled
with `Except String`; a method that mutates the shared canvas before
raising returns the mutated table alongside the error, exactly as the
matplotlib figure retains primitives drawn before an exception propagates.

Styling data with no geometric content (font size, line width/style on
optic outlines, zorder) is not modelled; colours are kept because the
source threads them through every primitive.
-/

open scoped Classical

namespace PyOpticalTable

/-- A point of the table coordinate space, `(x, y)`. -/
abbrev Point := ℝ × ℝ

/-- One drawing primitive issued to the matplotlib axes: a straight line
segment (`ax.plot` of two points), a text label (`ax.text`), a grid
coordinate label (`plt.text` of a numeric value), or a `fill_between`
region. -/
inductive Primitive where
  | line (p q : Point) (colour : String)
  | text (pos : Point) (content : String) (colour : String)
  | gridtext (pos : Point) (value : ℝ)
  | fillBetween (xs : ℝ × ℝ) (y1 y2 : ℝ) (colour : String)

/-- The accumulated drawing state of the figure, in draw order. -/
abbrev Canvas := List Primitive

/-- The module-level tuple `allowed_types` of `pyopticaltable.py`. -/
def allowed_types : List String :=
  ["mirror", "concave_lens", "convex_lens",
   "transmissive_plate", "transmissive_cube",
   "beamsplitter_cube", "generic_box",
   "box_source", "point_source",
   "beam_dump", "generic_circle",
   "concave_mirror"]

/-- The module-level tuple `allowed_modes`. -/
def allowed_modes : List String := ["r", "t"]

/-- The module-level tuple `allowed_sides`. -/
def allowed_sides : List String := ["top", "bottom", "left", "right"]

namespace Tools

/-- `Tools.deg_to_rad`: convert degrees to radians, `x * (pi/180)`. -/
noncomputable def deg_to_rad (x : ℝ) : ℝ := x * (Real.pi / 180)

/-- `Tools.sind`: sine of an angle given in degrees. -/
noncomputable def sind (x : ℝ) : ℝ := Real.sin (deg_to_rad x)

/-- `Tools.cosd`: cosine of an angle given in degrees. -/
noncomputable def cosd (x : ℝ) : ℝ := Real.cos (deg_to_rad x)

/-- `Tools.rotate_point`: rotate `point` by `angle` degrees anticlockwise
about `origin`, by the 2D rotation matrix written out in longhand. -/
noncomputable def rotate_point (point : Point) (angle : ℝ) (origin : Point) : Point :=
  ((point.1 - origin.1) * Real.cos (deg_to_rad angle) -
     (point.2 - origin.2) * Real.sin (deg_to_rad angle) + origin.1,
   (point.1 - origin.1) * Real.sin (deg_to_rad angle) +
     (point.2 - origin.2) * Real.cos (deg_to_rad angle) + origin.2)

/-- `Tools.get_midpoint`: midpoint of a line given as a pair of points. -/
noncomputable def get_midpoint (line : Point × Point) : Point :=
  (0.5 * (line.1.1 + line.2.1), 0.5 * (line.1.2 + line.2.2))

/-- `Tools.get_label_coords`: coordinates for an optic's label, offset from
`(x, y)` by `size*0.5 + labelpad` in the direction named by `label_pos`;
raises `ValueError` for an unknown position string. -/
noncomputable def get_label_coords (label_pos : String) (x y size labelpad : ℝ) :
    Except String (ℝ × ℝ) :=
  let offset := size * 0.5 + labelpad
  if label_pos = "top" then .ok (x, y + offset)
  else if label_pos = "bottom" then .ok (x, y - offset)
  else if label_pos = "left" then .ok (x - offset, y)
  else if label_pos = "right" then .ok (x + offset, y)
  else if label_pos = "centre" then .ok (x, y)
  else .error "Invalid label position - should be top, bottom, left, right, or centre."

end Tools

/-- `OpticalElement`: the handle returned by every element-placement method.
The Python `__init__` validates `mode` and `element_type` and then stores
only `x`, `y`, `mode` and `angle` as attributes; `element_type` is checked
but never assigned to `self`, so the structure has no kind field. -/
structure OpticalElement where
  x : ℝ
  y : ℝ
  mode : String
  angle : Option ℝ

/-- `OpticalElement.__init__`: raises `ValueError` when `mode` is not in
`allowed_modes` or `element_type` is not in `allowed_types`; otherwise
stores `x`, `y`, `mode`, `angle` (and discards `element_type`). -/
def OpticalElement.init (x y : ℝ) (mode : String) (angle : Option ℝ)
    (element_type : String) : Except String OpticalElement :=
  if mode ∉ allowed_modes then .error "Invalid mode type."
  else if element_type ∉ allowed_types then .error "Invalid element type."
  else .ok ⟨x, y, mode, angle⟩

/-- `OpticalTable`: the drawing canvas plus the `aspect_ratio = length/width`
attribute that scales all angle-derived offsets. -/
structure OpticalTable where
  canvas : Canvas
  aspect_ratio : ℝ

/-- Issue one drawing primitive to the table's axes (an `ax.plot`,
`ax.text` or `ax.fill_between` call). -/
def OpticalTable.render (t : OpticalTable) (p : Primitive) : OpticalTable :=
  ⟨t.canvas ++ [p], t.aspect_ratio⟩

/-- `float.is_integer` of Python, on the reals. -/
def isInteger (r : ℝ) : Prop := ∃ k : ℤ, (k : ℝ) = r

/-- The grid-line position list
`[(-extent/2)+(n*grid_spacing) for n in range(int(extent/grid_spacing + 1))]`
(`int` truncation is `Int.floor` here; the two agree on the asserted
integral case). -/
noncomputable def grid_line_positions (extent grid_spacing : ℝ) : List ℝ :=
  (List.range (⌊extent / grid_spacing + 1⌋).toNat).map
    fun n => (-extent / 2) + n * grid_spacing

/-- `OpticalTable.__init__`: draws the four table edges (when `show_edge`),
then, when `show_grid` is requested, asserts that `grid_spacing` divides
`length` and `width` to a whole number of lines and draws the vertical and
horizontal grid lines (and numeric labels when `show_labels`).  A failed
assertion is an error; nothing is observable from a Python constructor that
raised, so the error carries no partial table. -/
noncomputable def OpticalTable.init (length width : ℝ) (edgecolour : String)
    (grid_spacing : ℝ) (gridcolour : String)
    (show_edge show_grid show_labels : Bool) : Except String OpticalTable :=
  let edges : Canvas :=
    if show_edge then
      [.line (-length / 2, width / 2) (length / 2, width / 2) edgecolour,
       .line (-length / 2, -width / 2) (length / 2, -width / 2) edgecolour,
       .line (length / 2, -width / 2) (length / 2, width / 2) edgecolour,
       .line (-length / 2, -width / 2) (-length / 2, width / 2) edgecolour]
    else []
  if show_grid then
    if ¬ isInteger (length / grid_spacing) then
      .error "assert N_lines_x.is_integer()"
    else if ¬ isInteger (width / grid_spacing) then
      .error "assert N_lines_y.is_integer()"
    else
      let x_lines := grid_line_positions length grid_spacing
      let y_lines := grid_line_positions width grid_spacing
      let grid : Canvas :=
        x_lines.map (fun l => .line (l, -width / 2) (l, width / 2) gridcolour) ++
          y_lines.map (fun l => .line (-length / 2, l) (length / 2, l) gridcolour)
      let labels : Canvas :=
        if show_labels then
          x_lines.map (fun l => .gridtext (l, (-width / 2) - 1) l) ++
            y_lines.map (fun l => .gridtext ((-length / 2) - 1, l) l)
        else []
      .ok ⟨edges ++ grid ++ labels, length / width⟩
  else
    .ok ⟨edges, length / width⟩

/-- The `(x-dX, x+dX, y-dY, y+dY)` endpoint tuple `angled_line` returns
with `get_coords=True`. -/
structure LineCoords where
  x1 : ℝ
  x2 : ℝ
  y1 : ℝ
  y2 : ℝ

/-- `OpticalTable.angled_line`: a line of length `size` centred at `(x, y)`
rotated `angle` degrees anticlockwise, with both endpoint offsets scaled by
`aspect_ratio`; plotted when `show_` and its endpoint coordinates returned
(the Python returns them only under `get_coords=True`; callers that do not
ask simply ignore them here). -/
noncomputable def OpticalTable.angled_line (t : OpticalTable) (x y size angle : ℝ)
    (colour : String) (show_ : Bool) : OpticalTable × LineCoords :=
  let dX := size / 2 * Tools.cosd angle * t.aspect_ratio
  let dY := size / 2 * Tools.sind angle * t.aspect_ratio
  let t1 := if show_ then t.render (.line (x - dX, y - dY) (x + dX, y + dY) colour) else t
  (t1, ⟨x - dX, x + dX, y - dY, y + dY⟩)

/-- `OpticalTable.set_label`: when `label` is present, place its text at the
coordinates computed by `Tools.get_label_coords` (whose `ValueError` for a
bad `label_pos` propagates); when `label` is `None` do nothing. -/
noncomputable def OpticalTable.set_label (t : OpticalTable) (x y size : ℝ)
    (label : Option String) (label_pos : String) (labelpad : ℝ)
    (textcolour : String) : Except String OpticalTable :=
  match label with
  | none => .ok t
  | some s =>
    match Tools.get_label_coords label_pos x y size labelpad with
    | .error e => .error e
    | .ok lc => .ok (t.render (.text lc s textcolour))

/-- `OpticalTable.mirror`: draw the angled line, then the label (an invalid
`label_pos` raises only after the line is already on the canvas), and
return the reflective handle. -/
noncomputable def OpticalTable.mirror (t : OpticalTable) (x y size angle : ℝ)
    (colour : String) (label : Option String) (label_pos : String)
    (labelpad : ℝ) (textcolour : String) :
    OpticalTable × Except String OpticalElement :=
  let t1 := (t.angled_line x y size angle colour true).1
  match t1.set_label x y size label label_pos labelpad textcolour with
  | .error e => (t1, .error e)
  | .ok t2 => (t2, OpticalElement.init x y "r" (some angle) "mirror")

/-- `OpticalTable.transmissive_plate`: two face lines (drawn with the
default colour `"k"`, as in the source, which omits `colour` on both
`angled_line` calls), two connecting edge lines in `colour`, an optional
`fill_between`, the label, and a transmissive handle. -/
noncomputable def OpticalTable.transmissive_plate (t : OpticalTable)
    (x y size angle : ℝ) (colour : String) (offset_factor : ℝ)
    (fill : Bool) (fillcolour : String) (label : Option String)
    (label_pos : String) (labelpad : ℝ) (textcolour : String) :
    OpticalTable × Except String OpticalElement :=
  let offset_x := offset_factor * t.aspect_ratio * Tools.sind angle
  let offset_y := offset_factor * t.aspect_ratio * Tools.cosd angle
  let r1 := t.angled_line (x + offset_x) (y - offset_y) size angle "k" true
  let r2 := r1.1.angled_line (x - offset_x) (y + offset_y) size angle "k" true
  let c1 := r1.2
  let c2 := r2.2
  let t3 := ((r2.1.render (.line (c1.x1, c1.y1) (c2.x1, c2.y1) colour)).render
    (.line (c1.x2, c1.y2) (c2.x2, c2.y2) colour))
  let t4 := if fill then t3.render (.fillBetween (c1.x1, c1.x2) c1.y1 c2.y1 fillcolour) else t3
  match t4.set_label x y size label label_pos labelpad textcolour with
  | .error e => (t4, .error e)
  | .ok t5 => (t5, OpticalElement.init x y "t" (some angle) "transmissive_plate")

/-- `OpticalTable.transmissive_cube`: a transmissive plate with
`offset_factor = size*0.5` (all other plate arguments left at their
defaults), then this cube's own label and handle. -/
noncomputable def OpticalTable.transmissive_cube (t : OpticalTable)
    (x y size angle : ℝ) (colour : String) (label : Option String)
    (label_pos : String) (labelpad : ℝ) (textcolour : String) :
    OpticalTable × Except String OpticalElement :=
  let r1 := t.transmissive_plate x y size angle colour (size * 0.5) false "k" none "top" 0.25 "k"
  match r1.2 with
  | .error e => (r1.1, .error e)
  | .ok _ =>
    match r1.1.set_label x y size label label_pos labelpad textcolour with
    | .error e => (r1.1, .error e)
    | .ok t2 => (t2, OpticalElement.init x y "t" (some angle) "transmissive_cube")

/-- `OpticalTable.beamsplitter_cube`: validate `direction` first (raising
`ValueError` before anything is drawn), then draw a transmissive cube and
overlay the diagonal splitting line of length `size*sqrt(2)` — at
`angle+45` for direction `"L"` and `angle-45` for direction `"R"` — then
the label and the transmissive handle. -/
noncomputable def OpticalTable.beamsplitter_cube (t : OpticalTable)
    (x y size angle : ℝ) (direction : String) (colour : String)
    (label : Option String) (label_pos : String) (labelpad : ℝ)
    (textcolour : String) : OpticalTable × Except String OpticalElement :=
  if direction ∉ (["L", "R"] : List String) then
    (t, .error "Allowed values for direction are L and R.")
  else
    let r1 := t.transmissive_cube x y size angle colour none "top" 0.25 "k"
    match r1.2 with
    | .error e => (r1.1, .error e)
    | .ok _ =>
      let t2 := if direction = "L" then
          (r1.1.angled_line x y (size * Real.sqrt 2) (angle + 45) "k" true).1
        else r1.1
      let t3 := if direction = "R" then
          (t2.angled_line x y (size * Real.sqrt 2) (angle - 45) "k" true).1
        else t2
      match t3.set_label x y size label label_pos labelpad textcolour with
      | .error e => (t3, .error e)
      | .ok t4 => (t4, OpticalElement.init x y "t" (some angle) "beamsplitter_cube")

/-- `OpticalTable.box`: corners anticlockwise from bottom left, rotated
about the centre `(x, y)`; the four edges are always plotted (the drawing
loop precedes the `standalone` test).  The Python returns the handle when
`standalone` and the corner list otherwise; here the corners are always in
the second component and the third is `some` handle exactly in the
`standalone` case. -/
noncomputable def OpticalTable.box (t : OpticalTable) (x y size_x size_y angle : ℝ)
    (colour : String) (standalone : Bool) (label : Option String)
    (label_pos : String) (labelpad : ℝ) (textcolour : String) :
    OpticalTable × (Point × Point × Point × Point) × Option (Except String OpticalElement) :=
  let offset_x := size_x / 2
  let offset_y := size_y / 2
  let c0 := Tools.rotate_point (x - offset_x, y - offset_y) angle (x, y)
  let c1 := Tools.rotate_point (x + offset_x, y - offset_y) angle (x, y)
  let c2 := Tools.rotate_point (x + offset_x, y + offset_y) angle (x, y)
  let c3 := Tools.rotate_point (x - offset_x, y + offset_y) angle (x, y)
  let t1 := ((((t.render (.line c0 c1 colour)).render (.line c1 c2 colour)).render
    (.line c2 c3 colour)).render (.line c3 c0 colour))
  if standalone then
    match t1.set_label x y 0 label label_pos labelpad textcolour with
    | .error e => (t1, (c0, c1, c2, c3), some (.error e))
    | .ok t2 => (t2, (c0, c1, c2, c3), some (OpticalElement.init x y "t" (some angle) "generic_box"))
  else
    (t1, (c0, c1, c2, c3), none)

/-- `OpticalTable.box_source`: validate `output_side` first (before the box
is drawn), then draw the box — with the hard-coded colour `"k"` of the
source — and return a transmissive handle anchored at the midpoint of the
selected rotated side.  The Python `elif` chain has no trailing `else`;
after validation the remaining case is exactly `"right"`. -/
noncomputable def OpticalTable.box_source (t : OpticalTable)
    (x y size_x size_y angle : ℝ) (output_side : String) (colour : String)
    (label : Option String) (label_pos : String) (labelpad : ℝ)
    (textcolour : String) : OpticalTable × Except String OpticalElement :=
  if output_side ∉ allowed_sides then (t, .error "Invalid Output Side.")
  else
    let r := t.box x y size_x size_y angle "k" false none "top" 0.25 "k"
    let c := r.2.1
    let side : Point × Point :=
      if output_side = "top" then (c.2.2.1, c.2.2.2)
      else if output_side = "bottom" then (c.1, c.2.1)
      else if output_side = "left" then (c.1, c.2.2.2)
      else (c.2.1, c.2.2.1)
    let output_point := Tools.get_midpoint side
    match r.1.set_label x y 0 label label_pos labelpad textcolour with
    | .error e => (r.1, .error e)
    | .ok t2 => (t2, OpticalElement.init output_point.1 output_point.2 "t" (some angle) "box_source")

/-- `LaserBeam`: beam styling fixed at construction; `divergent` mode is
declared but not implemented. -/
structure LaserBeam where
  colour : String
  width : ℝ
  style : String
  divergent : Bool
  div_angle : Option ℝ

/-- The segments `LaserBeam.draw` plots: one straight line between the
anchors of each consecutive pair of handles, in list order (the loop
`for i, _ in enumerate(optics[0:-1])` plotting `optics[i] -- optics[i+1]`). -/
def beam_segments (beam : LaserBeam) (optics : List OpticalElement) : Canvas :=
  (optics.zip optics.tail).map fun pr => .line (pr.1.x, pr.1.y) (pr.2.x, pr.2.y) beam.colour

/-- `LaserBeam.draw`: a no-op in divergent mode (`pass  # do this later`),
otherwise append the connecting segments to the table's canvas. -/
def LaserBeam.draw (beam : LaserBeam) (table : OpticalTable)
    (optics : List OpticalElement) : OpticalTable :=
  if beam.divergent then table
  else ⟨table.canvas ++ beam_segments beam optics, table.aspect_ratio⟩

/-- Length of a rendered segment between two points. -/
noncomputable def seg_length (p q : Point) : ℝ :=
  Real.sqrt ((q.1 - p.1) ^ 2 + (q.2 - p.2) ^ 2)

/-- An empty square-aspect table, used as the concrete test state. -/
noncomputable def testTable : OpticalTable := ⟨[], 1⟩

/-- An empty table of aspect ratio 2 (for instance length 10, width 5). -/
noncomputable def wideTable : OpticalTable := ⟨[], 2⟩

/-- The four primitives `transmissive_plate` draws (face lines in the
default colour, connecting edges in `colour`), for a table of aspect
ratio `AR`, with `fill=False`. -/
noncomputable def plate_prims (AR x y size angle : ℝ) (colour : String) (off : ℝ) : Canvas :=
  let ox := off * AR * Tools.sind angle
  let oy := off * AR * Tools.cosd angle
  let dX := size / 2 * Tools.cosd angle * AR
  let dY := size / 2 * Tools.sind angle * AR
  [.line (x + ox - dX, y - oy - dY) (x + ox + dX, y - oy + dY) "k",
   .line (x - ox - dX, y + oy - dY) (x - ox + dX, y + oy + dY) "k",
   .line (x + ox - dX, y - oy - dY) (x - ox - dX, y + oy - dY) colour,
   .line (x + ox + dX, y - oy + dY) (x - ox + dX, y + oy + dY) colour]

/-- The rotated corners of `box`, anticlockwise from bottom left. -/
noncomputable def box_corners (x y size_x size_y angle : ℝ) :
    Point × Point × Point × Point :=
  (Tools.rotate_point (x - size_x / 2, y - size_y / 2) angle (x, y),
   Tools.rotate_point (x + size_x / 2, y - size_y / 2) angle (x, y),
   Tools.rotate_point (x + size_x / 2, y + size_y / 2) angle (x, y),
   Tools.rotate_point (x - size_x / 2, y + size_y / 2) angle (x, y))

/-- The four edge segments `box` always plots. -/
noncomputable def box_outline (x y size_x size_y angle : ℝ) (colour : String) : Canvas :=
  let c := box_corners x y size_x size_y angle
  [.line c.1 c.2.1 colour, .line c.2.1 c.2.2.1 colour,
   .line c.2.2.1 c.2.2.2 colour, .line c.2.2.2 c.1 colour]

/-- The midpoint, before rotation, of the named side of an axis-aligned
`size_x` by `size_y` box centred at `(x, y)` (the remaining case of the
validated side strings is `"right"`). -/
noncomputable def side_midpoint (side : String) (x y size_x size_y : ℝ) : Point :=
  if side = "top" then (x, y + size_y / 2)
  else if side = "bottom" then (x, y - size_y / 2)
  else if side = "left" then (x - size_x / 2, y)
  else (x + size_x / 2, y)

instance : Inhabited OpticalElement := ⟨⟨0, 0, "r", none⟩⟩

namespace Tools

lemma deg_to_rad_zero : deg_to_rad 0 = 0 := by unfold deg_to_rad; ring

lemma cosd_zero : cosd 0 = 1 := by unfold cosd; rw [deg_to_rad_zero, Real.cos_zero]

lemma sind_zero : sind 0 = 0 := by unfold sind; rw [deg_to_rad_zero, Real.sin_zero]

lemma deg_to_rad_forty_five : deg_to_rad 45 = Real.pi / 4 := by unfold deg_to_rad; ring

lemma cosd_forty_five : cosd 45 = Real.sqrt 2 / 2 := by
  unfold cosd; rw [deg_to_rad_forty_five, Real.cos_pi_div_four]

lemma sind_forty_five : sind 45 = Real.sqrt 2 / 2 := by
  unfold sind; rw [deg_to_rad_forty_five, Real.sin_pi_div_four]

lemma deg_to_rad_neg_forty_five : deg_to_rad (-45) = -(Real.pi / 4) := by
  unfold deg_to_rad; ring

lemma sind_neg_forty_five : sind (-45) = -(Real.sqrt 2 / 2) := by
  unfold sind; rw [deg_to_rad_neg_forty_five, Real.sin_neg, Real.sin_pi_div_four]

lemma cosd_neg_forty_five : cosd (-45) = Real.sqrt 2 / 2 := by
  unfold cosd; rw [deg_to_rad_neg_forty_five, Real.cos_neg, Real.cos_pi_div_four]

lemma cosd_sq_add_sind_sq (θ : ℝ) : cosd θ ^ 2 + sind θ ^ 2 = 1 := by
  unfold cosd sind; exact Real.cos_sq_add_sin_sq _

lemma rotate_point_zero_angle (p o : Point) : rotate_point p 0 o = p := by
  obtain ⟨a, b⟩ := p
  unfold rotate_point
  rw [deg_to_rad_zero, Real.cos_zero, Real.sin_zero]
  simp only [Prod.mk.injEq]
  constructor <;> ring

/-- Rotation commutes with taking midpoints (it is an affine map). -/
lemma get_midpoint_rotate (p q : Point) (θ : ℝ) (o : Point) :
    get_midpoint (rotate_point p θ o, rotate_point q θ o) =
      rotate_point (get_midpoint (p, q)) θ o := by
  unfold get_midpoint rotate_point
  simp only [Prod.mk.injEq]
  constructor <;> ring

lemma get_midpoint_symm_offsets (x y d e : ℝ) :
    get_midpoint ((x - d, y - e), (x + d, y + e)) = (x, y) := by
  unfold get_midpoint
  simp only [Prod.mk.injEq]
  constructor <;> ring

end Tools

/-- The length of the segment `angled_line` plots is the requested size
scaled by the table's aspect ratio. -/
lemma angled_seg_length (x y size θ AR : ℝ) (hs : 0 ≤ size) (hAR : 0 ≤ AR) :
    seg_length (x - size / 2 * Tools.cosd θ * AR, y - size / 2 * Tools.sind θ * AR)
      (x + size / 2 * Tools.cosd θ * AR, y + size / 2 * Tools.sind θ * AR) = size * AR := by
  unfold seg_length
  have h1 : (x + size / 2 * Tools.cosd θ * AR - (x - size / 2 * Tools.cosd θ * AR)) ^ 2 +
      (y + size / 2 * Tools.sind θ * AR - (y - size / 2 * Tools.sind θ * AR)) ^ 2
      = (size * AR) ^ 2 * (Tools.cosd θ ^ 2 + Tools.sind θ ^ 2) := by ring
  rw [h1, Tools.cosd_sq_add_sind_sq, mul_one, Real.sqrt_sq (mul_nonneg hs hAR)]

lemma OpticalElement.init_ok (x y : ℝ) (mode : String) (angle : Option ℝ)
    (ty : String) (hm : mode ∈ allowed_modes) (ht : ty ∈ allowed_types) :
    OpticalElement.init x y mode angle ty = .ok ⟨x, y, mode, angle⟩ := by
  unfold OpticalElement.init
  rw [if_neg (not_not_intro hm), if_neg (not_not_intro ht)]

lemma OpticalTable.set_label_none (t : OpticalTable) (x y size : ℝ) (lp : String)
    (pad : ℝ) (tc : String) : t.set_label x y size none lp pad tc = .ok t := rfl

lemma OpticalTable.angled_line_show (t : OpticalTable) (x y size angle : ℝ)
    (colour : String) :
    t.angled_line x y size angle colour true =
      (⟨t.canvas ++ [.line (x - size / 2 * Tools.cosd angle * t.aspect_ratio,
                            y - size / 2 * Tools.sind angle * t.aspect_ratio)
                           (x + size / 2 * Tools.cosd angle * t.aspect_ratio,
                            y + size / 2 * Tools.sind angle * t.aspect_ratio) colour],
         t.aspect_ratio⟩,
       ⟨x - size / 2 * Tools.cosd angle * t.aspect_ratio,
        x + size / 2 * Tools.cosd angle * t.aspect_ratio,
        y - size / 2 * Tools.sind angle * t.aspect_ratio,
        y + size / 2 * Tools.sind angle * t.aspect_ratio⟩) := rfl

lemma OpticalTable.transmissive_plate_none (t : OpticalTable) (x y size angle : ℝ)
    (colour : String) (off : ℝ) :
    t.transmissive_plate x y size angle colour off false "k" none "top" 0.25 "k" =
      (⟨t.canvas ++ plate_prims t.aspect_ratio x y size angle colour off,
        t.aspect_ratio⟩,
       .ok ⟨x, y, "t", some angle⟩) := by
  have h1 : OpticalElement.init x y "t" (some angle) "transmissive_plate"
      = .ok ⟨x, y, "t", some angle⟩ :=
    OpticalElement.init_ok _ _ _ _ _ (by decide) (by decide)
  simp [OpticalTable.transmissive_plate, OpticalTable.angled_line, OpticalTable.render,
    OpticalTable.set_label, plate_prims, h1]

lemma OpticalTable.transmissive_cube_none (t : OpticalTable) (x y size angle : ℝ)
    (colour : String) :
    t.transmissive_cube x y size angle colour none "top" 0.25 "k" =
      (⟨t.canvas ++ plate_prims t.aspect_ratio x y size angle colour (size * 0.5),
        t.aspect_ratio⟩,
       .ok ⟨x, y, "t", some angle⟩) := by
  have h1 : OpticalElement.init x y "t" (some angle) "transmissive_cube"
      = .ok ⟨x, y, "t", some angle⟩ :=
    OpticalElement.init_ok _ _ _ _ _ (by decide) (by decide)
  simp [OpticalTable.transmissive_cube, OpticalTable.transmissive_plate_none,
    OpticalTable.set_label, h1]

/-- With direction `"L"` the beamsplitter draws the cube and then the
diagonal at `angle + 45`. -/
lemma OpticalTable.beamsplitter_cube_L (t : OpticalTable) (x y size angle : ℝ)
    (colour lp tc : String) (pad : ℝ) :
    t.beamsplitter_cube x y size angle "L" colour none lp pad tc =
      (⟨t.canvas ++ plate_prims t.aspect_ratio x y size angle colour (size * 0.5)
          ++ [.line (x - size * Real.sqrt 2 / 2 * Tools.cosd (angle + 45) * t.aspect_ratio,
                     y - size * Real.sqrt 2 / 2 * Tools.sind (angle + 45) * t.aspect_ratio)
                    (x + size * Real.sqrt 2 / 2 * Tools.cosd (angle + 45) * t.aspect_ratio,
                     y + size * Real.sqrt 2 / 2 * Tools.sind (angle + 45) * t.aspect_ratio) "k"],
        t.aspect_ratio⟩,
       .ok ⟨x, y, "t", some angle⟩) := by
  have h1 : OpticalElement.init x y "t" (some angle) "beamsplitter_cube"
      = .ok ⟨x, y, "t", some angle⟩ :=
    OpticalElement.init_ok _ _ _ _ _ (by decide) (by decide)
  have h2 : ¬ (("L" : String) ∉ (["L", "R"] : List String)) := by decide
  have h3 : ¬ (("L" : String) = "R") := by decide
  simp [OpticalTable.beamsplitter_cube, OpticalTable.transmissive_cube_none,
    OpticalTable.angled_line, OpticalTable.render, OpticalTable.set_label, h1, h2, h3,
    mul_div_assoc, mul_comm, mul_left_comm, mul_assoc, List.append_assoc]

/-- With direction `"R"` the beamsplitter draws the cube and then the
diagonal at `angle - 45`. -/
lemma OpticalTable.beamsplitter_cube_R (t : OpticalTable) (x y size angle : ℝ)
    (colour lp tc : String) (pad : ℝ) :
    t.beamsplitter_cube x y size angle "R" colour none lp pad tc =
      (⟨t.canvas ++ plate_prims t.aspect_ratio x y size angle colour (size * 0.5)
          ++ [.line (x - size * Real.sqrt 2 / 2 * Tools.cosd (angle - 45) * t.aspect_ratio,
                     y - size * Real.sqrt 2 / 2 * Tools.sind (angle - 45) * t.aspect_ratio)
                    (x + size * Real.sqrt 2 / 2 * Tools.cosd (angle - 45) * t.aspect_ratio,
                     y + size * Real.sqrt 2 / 2 * Tools.sind (angle - 45) * t.aspect_ratio) "k"],
        t.aspect_ratio⟩,
       .ok ⟨x, y, "t", some angle⟩) := by
  have h1 : OpticalElement.init x y "t" (some angle) "beamsplitter_cube"
      = .ok ⟨x, y, "t", some angle⟩ :=
    OpticalElement.init_ok _ _ _ _ _ (by decide) (by decide)
  have h2 : ¬ (("R" : String) ∉ (["L", "R"] : List String)) := by decide
  have h3 : ¬ (("R" : String) = "L") := by decide
  simp [OpticalTable.beamsplitter_cube, OpticalTable.transmissive_cube_none,
    OpticalTable.angled_line, OpticalTable.render, OpticalTable.set_label, h1, h2, h3,
    mul_div_assoc, mul_comm, mul_left_comm, mul_assoc, List.append_assoc]

lemma OpticalTable.box_none (t : OpticalTable) (x y size_x size_y angle : ℝ)
    (colour : String) (standalone : Bool) (lp : String) (pad : ℝ) (tc : String) :
    t.box x y size_x size_y angle colour standalone none lp pad tc =
      (⟨t.canvas ++ box_outline x y size_x size_y angle colour, t.aspect_ratio⟩,
       box_corners x y size_x size_y angle,
       if standalone then some (OpticalElement.init x y "t" (some angle) "generic_box")
       else none) := by
  cases standalone <;>
    simp [OpticalTable.box, OpticalTable.render, OpticalTable.set_label,
      box_outline, box_corners, List.append_assoc]

lemma beam_segments_length (b : LaserBeam) (optics : List OpticalElement) :
    (beam_segments b optics).length = optics.length - 1 := by
  unfold beam_segments
  rw [List.length_map, List.length_zip, List.length_tail]
  omega

lemma beam_segments_getD (b : LaserBeam) :
    ∀ (optics : List OpticalElement) (i : ℕ), i + 1 < optics.length →
      (beam_segments b optics).getD i (Primitive.line (0, 0) (0, 0) "") =
        Primitive.line ((optics.getD i default).x, (optics.getD i default).y)
          ((optics.getD (i + 1) default).x, (optics.getD (i + 1) default).y) b.colour
  | [], i, h => by simp at h
  | [e], i, h => by simp at h
  | e1 :: e2 :: rest, 0, h => by simp [beam_segments]
  | e1 :: e2 :: rest, (i + 1), h => by
    have ih := beam_segments_getD b (e2 :: rest) i (by simpa using h)
    simpa [beam_segments] using ih

lemma not_isInteger_ten_thirds : ¬ isInteger ((10 : ℝ) / 3) := by
  rintro ⟨k, hk⟩
  have h3 : ((3 * k : ℤ) : ℝ) = ((10 : ℤ) : ℝ) := by
    push_cast
    have : ((10 : ℝ) / 3) * 3 = 10 := by norm_num
    nlinarith [hk]
  have h10 : (3 * k : ℤ) = 10 := by exact_mod_cast h3
  omega

lemma grid_line_positions_ten_two :
    grid_line_positions 10 2 = [-5, -3, -1, 1, 3, 5] := by
  unfold grid_line_positions
  rw [show ((10 : ℝ) / 2 + 1) = ((6 : ℤ) : ℝ) by norm_num, Int.floor_intCast]
  rw [show (6 : ℤ).toNat = 6 from rfl]
  rw [show List.range 6 = [0, 1, 2, 3, 4, 5] from rfl]
  norm_num

/-- C2 (amended): a successful handle construction validates the kind and
the mode but stores only the anchor, mode and angle — the `element_type`
argument is discarded, so handles built from different valid kinds are
identical. -/
theorem c2_handle_kind (x y : ℝ) (mode : String) (angle : Option ℝ) (ty : String)
    (hm : mode ∈ allowed_modes) (ht : ty ∈ allowed_types) :
    OpticalElement.init x y mode angle ty = .ok ⟨x, y, mode, angle⟩
    ∧ ∀ ty2, ty2 ∈ allowed_types →
        OpticalElement.init x y mode angle ty = OpticalElement.init x y mode angle ty2 := by
  refine ⟨OpticalElement.init_ok x y mode angle ty hm ht, fun ty2 h2 => ?_⟩
  rw [OpticalElement.init_ok x y mode angle ty hm ht,
    OpticalElement.init_ok x y mode angle ty2 hm h2]

/-- C2 witness: constructing a mirror handle at the origin. -/
theorem c2_handle_kind_witness :
    OpticalElement.init 0 0 "r" none "mirror" = .ok ⟨0, 0, "r", none⟩ :=
  (c2_handle_kind 0 0 "r" none "mirror" (by decide) (by decide)).1

/-- C2 counterexample: two constructions that differ only in the kind give
equal handles, so the kind is not retained on the handle as claimed. -/
theorem c2_handle_kind_cex :
    OpticalElement.init 0 0 "r" (some 0) "mirror"
      = OpticalElement.init 0 0 "r" (some 0) "concave_mirror"
    ∧ ("mirror" : String) ≠ "concave_mirror" := by
  refine ⟨?_, by decide⟩
  rw [OpticalElement.init_ok _ _ _ _ _ (by decide) (by decide),
    OpticalElement.init_ok _ _ _ _ _ (by decide) (by decide)]

/-- C5: with divergent mode off, `LaserBeam.draw` appends exactly the
consecutive-anchor segments to the canvas: `n - 1` of them for `n`
handles (`0` for zero or one handle), the `i`-th joining the anchors of
handles `i` and `i + 1`, in list order. -/
theorem c5_beam_segments_thm (colour : String) (width : ℝ) (style : String)
    (da : Option ℝ) (table : OpticalTable) (optics : List OpticalElement) :
    ((LaserBeam.mk colour width style false da).draw table optics).canvas
        = table.canvas ++ beam_segments (LaserBeam.mk colour width style false da) optics
    ∧ (beam_segments (LaserBeam.mk colour width style false da) optics).length
        = optics.length - 1
    ∧ (∀ i, i + 1 < optics.length →
        (beam_segments (LaserBeam.mk colour width style false da) optics).getD i
            (Primitive.line (0, 0) (0, 0) "")
          = Primitive.line ((optics.getD i default).x, (optics.getD i default).y)
              ((optics.getD (i + 1) default).x, (optics.getD (i + 1) default).y) colour)
    ∧ beam_segments (LaserBeam.mk colour width style false da) [] = []
    ∧ ∀ e, beam_segments (LaserBeam.mk colour width style false da) [e] = [] := by
  refine ⟨?_, beam_segments_length _ _, fun i h => beam_segments_getD _ _ i h,
    rfl, fun e => rfl⟩
  simp [LaserBeam.draw]

/-- C5 witness: the spec's example route `[(0,0), (5,0), (5,5)]` renders
exactly the two segments `(0,0)-(5,0)` and `(5,0)-(5,5)`. -/
theorem c5_beam_segments_witness :
    ((LaserBeam.mk "red" 1 "-" false none).draw testTable
        [⟨0, 0, "t", none⟩, ⟨5, 0, "r", some 45⟩, ⟨5, 5, "t", none⟩]).canvas
      = [Primitive.line (0, 0) (5, 0) "red", Primitive.line (5, 0) (5, 5) "red"]
    ∧ (beam_segments (LaserBeam.mk "red" 1 "-" false none)
        [⟨0, 0, "t", none⟩, ⟨5, 0, "r", some 45⟩, ⟨5, 5, "t", none⟩]).getD 0
          (Primitive.line (0, 0) (0, 0) "")
      = Primitive.line (0, 0) (5, 0) "red" := by
  have h := c5_beam_segments_thm "red" 1 "-" none testTable
    [⟨0, 0, "t", none⟩, ⟨5, 0, "r", some 45⟩, ⟨5, 5, "t", none⟩]
  refine ⟨?_, ?_⟩
  · rw [h.1]
    simp [testTable, beam_segments]
  · have h0 := h.2.2.1 0 (by simp)
    simpa [beam_segments] using h0

/-- C6: with divergent mode on, `LaserBeam.draw` is a no-op — the table
(and hence the canvas) is returned unchanged, with zero segments added. -/
theorem c6_divergent_noop (colour : String) (width : ℝ) (style : String)
    (da : Option ℝ) (table : OpticalTable) (optics : List OpticalElement) :
    (LaserBeam.mk colour width style true da).draw table optics = table := by
  simp [LaserBeam.draw]

/-- C9: `LaserBeam.draw` preserves the table's aspect ratio and only
appends primitives — all of them line segments — to the canvas; handles
are pure values here, so they cannot be mutated by the call. -/
theorem c9_beam_draw_frame (beam : LaserBeam) (table : OpticalTable)
    (optics : List OpticalElement) :
    (beam.draw table optics).aspect_ratio = table.aspect_ratio
    ∧ ∃ added, (beam.draw table optics).canvas = table.canvas ++ added
        ∧ ∀ p ∈ added, ∃ a b c, p = Primitive.line a b c := by
  unfold LaserBeam.draw
  cases hd : beam.divergent with
  | true =>
    refine ⟨by simp, [], by simp, by simp⟩
  | false =>
    refine ⟨by simp, beam_segments beam optics, by simp, ?_⟩
    intro p hp
    unfold beam_segments at hp
    obtain ⟨pr, _, rfl⟩ := List.mem_map.1 hp
    exact ⟨_, _, _, rfl⟩

/-- C10: `box` plots the four rectangle edges regardless of `standalone`;
with `standalone=False` it returns the four rotated corners (and no
handle), and the internal `standalone=False` call made by `box_source`
likewise leaves the outline on the canvas. -/
theorem c10_box_outline_always (t : OpticalTable) (x y size_x size_y angle : ℝ)
    (colour : String) (standalone : Bool) (lp : String) (pad : ℝ) (tc : String) :
    (t.box x y size_x size_y angle colour standalone none lp pad tc).1.canvas
        = t.canvas ++ box_outline x y size_x size_y angle colour
    ∧ (t.box x y size_x size_y angle colour false none lp pad tc).2.1
        = box_corners x y size_x size_y angle
    ∧ (t.box x y size_x size_y angle colour false none lp pad tc).2.2 = none
    ∧ (t.box_source x y size_x size_y angle "right" colour none lp pad tc).1.canvas
        = t.canvas ++ box_outline x y size_x size_y angle "k" := by
  refine ⟨?_, ?_, ?_, ?_⟩
  · rw [OpticalTable.box_none]
  · rw [OpticalTable.box_none]
  · rw [OpticalTable.box_none]
    simp
  · have hmem : ¬ (("right" : String) ∉ allowed_sides) := by decide
    simp [OpticalTable.box_source, OpticalTable.box_none, OpticalTable.set_label, hmem]

/-- C7: with a grid requested, `length=10, grid_spacing=3` fails the
integer-line-count assertion for every width; `grid_spacing=2` (and a
width the spacing divides) succeeds, drawing the vertical grid lines at
exactly `x ∈ \x7b-5, -3, -1, 1, 3, 5\x7d`; with no grid requested the
divisibility precondition is not checked at all. -/
theorem c7_grid_precondition (w : ℝ) (ec gc : String) (se sl : Bool) :
    OpticalTable.init 10 w ec 3 gc se true sl = .error "assert N_lines_x.is_integer()"
    ∧ (isInteger (w / 2) →
        OpticalTable.init 10 w ec 2 gc se true sl =
          .ok ⟨(if se then
                  [Primitive.line (-5, w / 2) (5, w / 2) ec,
                   Primitive.line (-5, -w / 2) (5, -w / 2) ec,
                   Primitive.line (5, -w / 2) (5, w / 2) ec,
                   Primitive.line (-5, -w / 2) (-5, w / 2) ec]
                else []) ++
               (([-5, -3, -1, 1, 3, 5] : List ℝ).map
                  fun l => Primitive.line (l, -w / 2) (l, w / 2) gc) ++
               ((grid_line_positions w 2).map
                  fun l => Primitive.line (-5, l) (5, l) gc) ++
               (if sl then
                  (([-5, -3, -1, 1, 3, 5] : List ℝ).map
                     fun l => Primitive.gridtext (l, -w / 2 - 1) l) ++
                  ((grid_line_positions w 2).map
                     fun l => Primitive.gridtext (-6, l) l)
                else []),
               10 / w⟩)
    ∧ OpticalTable.init 10 w ec 3 gc se false sl =
        .ok ⟨(if se then
                [Primitive.line (-5, w / 2) (5, w / 2) ec,
                 Primitive.line (-5, -w / 2) (5, -w / 2) ec,
                 Primitive.line (5, -w / 2) (5, w / 2) ec,
                 Primitive.line (-5, -w / 2) (-5, w / 2) ec]
              else []), 10 / w⟩ := by
  refine ⟨?_, fun hw => ?_, ?_⟩
  · simp [OpticalTable.init, not_isInteger_ten_thirds]
  · have h5 : isInteger (5 : ℝ) := ⟨5, by norm_num⟩
    have h5' : isInteger ((10 : ℝ) / 2) := ⟨5, by norm_num⟩
    cases se <;> cases sl <;>
      norm_num [OpticalTable.init, h5, h5', hw, grid_line_positions_ten_two,
        List.append_assoc]
  · cases se <;> norm_num [OpticalTable.init]

/-- C7 witness: width 6 (which grid spacing 2 divides) at the claim's
concrete inputs. -/
theorem c7_grid_precondition_witness :
    OpticalTable.init 10 6 "k" 3 "gray" true true false
        = .error "assert N_lines_x.is_integer()"
    ∧ ∃ t, OpticalTable.init 10 6 "k" 2 "gray" true true false = .ok t := by
  have h := c7_grid_precondition 6 "k" "gray" true false
  exact ⟨h.1, ⟨_, h.2.1 ⟨3, by norm_num⟩⟩⟩

/-- C4 (amended): `mirror` renders one straight segment of length
`size * aspect_ratio` (equal to `size` only on square-aspect tables),
centred at `(x, y)` with endpoints along the direction `angle`, and
returns the reflective handle anchored at `(x, y)` with orientation
`angle`. -/
theorem c4_mirror_geometry (t : OpticalTable) (x y size angle : ℝ)
    (colour lp tc : String) (pad : ℝ)
    (hAR : 0 ≤ t.aspect_ratio) (hs : 0 ≤ size) :
    t.mirror x y size angle colour none lp pad tc =
      (⟨t.canvas ++ [.line (x - size / 2 * Tools.cosd angle * t.aspect_ratio,
                            y - size / 2 * Tools.sind angle * t.aspect_ratio)
                           (x + size / 2 * Tools.cosd angle * t.aspect_ratio,
                            y + size / 2 * Tools.sind angle * t.aspect_ratio) colour],
         t.aspect_ratio⟩,
       .ok ⟨x, y, "r", some angle⟩)
    ∧ seg_length (x - size / 2 * Tools.cosd angle * t.aspect_ratio,
                  y - size / 2 * Tools.sind angle * t.aspect_ratio)
                 (x + size / 2 * Tools.cosd angle * t.aspect_ratio,
                  y + size / 2 * Tools.sind angle * t.aspect_ratio)
        = size * t.aspect_ratio
    ∧ Tools.get_midpoint ((x - size / 2 * Tools.cosd angle * t.aspect_ratio,
                           y - size / 2 * Tools.sind angle * t.aspect_ratio),
                          (x + size / 2 * Tools.cosd angle * t.aspect_ratio,
                           y + size / 2 * Tools.sind angle * t.aspect_ratio))
        = (x, y) := by
  refine ⟨?_, angled_seg_length x y size angle t.aspect_ratio hs hAR,
    Tools.get_midpoint_symm_offsets x y _ _⟩
  have h1 : OpticalElement.init x y "r" (some angle) "mirror"
      = .ok ⟨x, y, "r", some angle⟩ :=
    OpticalElement.init_ok _ _ _ _ _ (by decide) (by decide)
  simp [OpticalTable.mirror, OpticalTable.angled_line, OpticalTable.render,
    OpticalTable.set_label, h1]

/-- C4 witness: a size-2 mirror on the square test table. -/
theorem c4_mirror_geometry_witness :
    seg_length (0 - 2 / 2 * Tools.cosd 0 * testTable.aspect_ratio,
                0 - 2 / 2 * Tools.sind 0 * testTable.aspect_ratio)
               (0 + 2 / 2 * Tools.cosd 0 * testTable.aspect_ratio,
                0 + 2 / 2 * Tools.sind 0 * testTable.aspect_ratio)
      = 2 * testTable.aspect_ratio := by
  have h := c4_mirror_geometry testTable 0 0 2 0 "k" "bottom" "k" 0.25
    (by norm_num [testTable]) (by norm_num)
  exact h.2.1

/-- C4 counterexample: on a table with `aspect_ratio = 2` the segment
drawn by `mirror` with `size = 1` has length `2`, not `1` — the rendered
length is not `size` on every table. -/
theorem c4_mirror_geometry_cex :
    (wideTable.mirror 0 0 1 0 "k" none "bottom" 0.25 "k").1.canvas
        = [Primitive.line (-(1 / 2) * 2, 0) ((1 / 2) * 2, 0) "k"]
    ∧ seg_length (-(1 / 2) * 2, 0) ((1 / 2) * 2, 0) = 2
    ∧ (2 : ℝ) ≠ 1 := by
  refine ⟨?_, ?_, by norm_num⟩
  · have h1 : OpticalElement.init 0 0 "r" (some 0) "mirror"
        = .ok ⟨0, 0, "r", some 0⟩ :=
      OpticalElement.init_ok _ _ _ _ _ (by decide) (by decide)
    simp [wideTable, OpticalTable.mirror, OpticalTable.angled_line,
      OpticalTable.render, OpticalTable.set_label, h1,
      Tools.cosd_zero, Tools.sind_zero]
  · unfold seg_length
    rw [show ((1 : ℝ) / 2 * 2 - -(1 / 2) * 2) ^ 2 + ((0 : ℝ) - 0) ^ 2 = 2 ^ 2 by norm_num]
    exact Real.sqrt_sq (by norm_num)

/-- C8: for every valid `output_side`, the handle returned by `box_source`
is anchored at the midpoint of the selected rotated box side — equal to the
rotation about `(x, y)` of the unrotated side midpoint — and at the claim's
concrete inputs the anchors are `(2, 0)` for `"right"` and `(0, 1)` for
`"top"`. -/
theorem c8_box_source_anchor (t : OpticalTable) (x y sx sy angle : ℝ)
    (colour lp tc : String) (pad : ℝ) (side : String)
    (hside : side ∈ allowed_sides) :
    (t.box_source x y sx sy angle side colour none lp pad tc).2
        = .ok ⟨(Tools.rotate_point (side_midpoint side x y sx sy) angle (x, y)).1,
               (Tools.rotate_point (side_midpoint side x y sx sy) angle (x, y)).2,
               "t", some angle⟩
    ∧ (testTable.box_source 0 0 4 2 0 "right" "k" none "top" 0.25 "k").2
        = .ok ⟨2, 0, "t", some 0⟩
    ∧ (testTable.box_source 0 0 4 2 0 "top" "k" none "top" 0.25 "k").2
        = .ok ⟨0, 1, "t", some 0⟩ := by
  have hinit : ∀ (a b : ℝ) (ang : ℝ),
      OpticalElement.init a b "t" (some ang) "box_source" = .ok ⟨a, b, "t", some ang⟩ :=
    fun a b ang => OpticalElement.init_ok _ _ _ _ _ (by decide) (by decide)
  refine ⟨?_, ?_, ?_⟩
  · simp only [allowed_sides, List.mem_cons, List.mem_singleton,
      List.not_mem_nil, or_false] at hside
    rcases hside with h | h | h | h <;> subst h
    · have hv : ¬ (("top" : String) ∉ allowed_sides) := by decide
      have hmid : Tools.get_midpoint
          ((box_corners x y sx sy angle).2.2.1, (box_corners x y sx sy angle).2.2.2)
          = Tools.rotate_point (side_midpoint "top" x y sx sy) angle (x, y) := by
        unfold box_corners
        rw [Tools.get_midpoint_rotate]
        congr 1
        unfold Tools.get_midpoint side_midpoint
        norm_num
        constructor <;> ring
      simp [OpticalTable.box_source, OpticalTable.box_none, OpticalTable.set_label,
        hv, hinit, hmid]
    · have hv : ¬ (("bottom" : String) ∉ allowed_sides) := by decide
      have hne1 : ¬ (("bottom" : String) = "top") := by decide
      have hmid : Tools.get_midpoint
          ((box_corners x y sx sy angle).1, (box_corners x y sx sy angle).2.1)
          = Tools.rotate_point (side_midpoint "bottom" x y sx sy) angle (x, y) := by
        unfold box_corners
        rw [Tools.get_midpoint_rotate]
        congr 1
        unfold Tools.get_midpoint side_midpoint
        rw [if_neg hne1]
        simp only [if_true, Prod.mk.injEq]
        constructor <;> ring
      simp [OpticalTable.box_source, OpticalTable.box_none, OpticalTable.set_label,
        hv, hinit, hmid]
    · have hv : ¬ (("left" : String) ∉ allowed_sides) := by decide
      have hne1 : ¬ (("left" : String) = "top") := by decide
      have hne2 : ¬ (("left" : String) = "bottom") := by decide
      have hmid : Tools.get_midpoint
          ((box_corners x y sx sy angle).1, (box_corners x y sx sy angle).2.2.2)
          = Tools.rotate_point (side_midpoint "left" x y sx sy) angle (x, y) := by
        unfold box_corners
        rw [Tools.get_midpoint_rotate]
        congr 1
        unfold Tools.get_midpoint side_midpoint
        rw [if_neg hne1, if_neg hne2]
        simp only [if_true, Prod.mk.injEq]
        constructor <;> ring
      simp [OpticalTable.box_source, OpticalTable.box_none, OpticalTable.set_label,
        hv, hinit, hmid]
    · have hv : ¬ (("right" : String) ∉ allowed_sides) := by decide
      have hne1 : ¬ (("right" : String) = "top") := by decide
      have hne2 : ¬ (("right" : String) = "bottom") := by decide
      have hne3 : ¬ (("right" : String) = "left") := by decide
      have hmid : Tools.get_midpoint
          ((box_corners x y sx sy angle).2.1, (box_corners x y sx sy angle).2.2.1)
          = Tools.rotate_point (side_midpoint "right" x y sx sy) angle (x, y) := by
        unfold box_corners
        rw [Tools.get_midpoint_rotate]
        congr 1
        unfold Tools.get_midpoint side_midpoint
        rw [if_neg hne1, if_neg hne2, if_neg hne3]
        simp only [Prod.mk.injEq]
        constructor <;> ring
      simp [OpticalTable.box_source, OpticalTable.box_none, OpticalTable.set_label,
        hv, hinit, hmid]
  · have hv : ¬ (("right" : String) ∉ allowed_sides) := by decide
    simp [OpticalTable.box_source, OpticalTable.box_none, OpticalTable.set_label,
      hv, hinit, box_corners, Tools.rotate_point_zero_angle, Tools.get_midpoint]
    norm_num
  · have hv : ¬ (("top" : String) ∉ allowed_sides) := by decide
    simp [OpticalTable.box_source, OpticalTable.box_none, OpticalTable.set_label,
      hv, hinit, box_corners, Tools.rotate_point_zero_angle, Tools.get_midpoint]
    norm_num

/-- C8 witness: the `"left"` side of the claim's concrete box. -/
theorem c8_box_source_anchor_witness :
    (testTable.box_source 0 0 4 2 0 "left" "k" none "top" 0.25 "k").2
      = .ok ⟨(Tools.rotate_point (side_midpoint "left" 0 0 4 2) 0 (0, 0)).1,
             (Tools.rotate_point (side_midpoint "left" 0 0 4 2) 0 (0, 0)).2,
             "t", some 0⟩ :=
  (c8_box_source_anchor testTable 0 0 4 2 0 "k" "top" "k" 0.25 "left" (by decide)).1

/-- C3 (amended): the enum validations of `direction` (beamsplitter) and
`output_side` (box source) do fail fast, returning the table unchanged
with nothing drawn; but label-side validation runs only after the element
geometry is committed — a `mirror` call with a label and an invalid label
position has already drawn its line when the error is raised. -/
theorem c3_fail_fast (t : OpticalTable) (x y size angle sx sy : ℝ)
    (colour lbl : String) (pad : ℝ) (tc : String) :
    (∀ direction, direction ∉ (["L", "R"] : List String) →
      t.beamsplitter_cube x y size angle direction colour none "top" pad tc
        = (t, .error "Allowed values for direction are L and R."))
    ∧ (∀ os, os ∉ allowed_sides →
      t.box_source x y sx sy angle os colour none "top" pad tc
        = (t, .error "Invalid Output Side."))
    ∧ (∀ lp, lp ∉ (["top", "bottom", "left", "right", "centre"] : List String) →
      t.mirror x y size angle colour (some lbl) lp pad tc
        = (⟨t.canvas ++ [.line (x - size / 2 * Tools.cosd angle * t.aspect_ratio,
                               y - size / 2 * Tools.sind angle * t.aspect_ratio)
                              (x + size / 2 * Tools.cosd angle * t.aspect_ratio,
                               y + size / 2 * Tools.sind angle * t.aspect_ratio) colour],
            t.aspect_ratio⟩,
           .error "Invalid label position - should be top, bottom, left, right, or centre.")) := by
  refine ⟨fun d hd => ?_, fun os hos => ?_, fun lp hlp => ?_⟩
  · unfold OpticalTable.beamsplitter_cube
    rw [if_pos hd]
  · unfold OpticalTable.box_source
    rw [if_pos hos]
  · simp only [List.mem_cons, List.mem_singleton, List.not_mem_nil, or_false,
      not_or] at hlp
    obtain ⟨h1, h2, h3, h4, h5⟩ := hlp
    simp [OpticalTable.mirror, OpticalTable.angled_line, OpticalTable.render,
      OpticalTable.set_label, Tools.get_label_coords, h1, h2, h3, h4, h5]

/-- C3 witness: an invalid beamsplitter direction fails with the table
unchanged. -/
theorem c3_fail_fast_witness :
    testTable.beamsplitter_cube 0 0 1 0 "X" "k" none "top" 0.25 "k"
      = (testTable, .error "Allowed values for direction are L and R.") := by
  have h := c3_fail_fast testTable 0 0 1 0 4 2 "k" "M" 0.25 "k"
  exact h.1 "X" (by decide)

/-- C3 counterexample: a mirror with label position `"oops"` raises the
invalid-label error, yet its line is already on the canvas — the claim
that nothing is drawn before such a failure is false. -/
theorem c3_fail_fast_cex :
    (testTable.mirror 0 0 1 0 "k" (some "M1") "oops" 0.25 "k").2
        = .error "Invalid label position - should be top, bottom, left, right, or centre."
    ∧ (testTable.mirror 0 0 1 0 "k" (some "M1") "oops" 0.25 "k").1.canvas ≠ [] := by
  have hh : ∀ (s : String), s = "oops" →
      ¬ s = "top" ∧ ¬ s = "bottom" ∧ ¬ s = "left" ∧ ¬ s = "right" ∧ ¬ s = "centre" := by
    rintro s rfl
    refine ⟨by decide, by decide, by decide, by decide, by decide⟩
  obtain ⟨h1, h2, h3, h4, h5⟩ := hh "oops" rfl
  constructor
  · simp [OpticalTable.mirror, OpticalTable.angled_line, OpticalTable.render,
      OpticalTable.set_label, Tools.get_label_coords, h1, h2, h3, h4, h5]
  · simp [testTable, OpticalTable.mirror, OpticalTable.angled_line,
      OpticalTable.render, OpticalTable.set_label, Tools.get_label_coords,
      h1, h2, h3, h4, h5]

/-- C1 (amended): `beamsplitter_cube` draws a transmissive cube overlaid
with one diagonal of length `size*sqrt(2)` (scaled, like every segment, by
the aspect ratio), but at `angle + 45` for direction `"L"` and
`angle - 45` for direction `"R"`; any other direction fails with the
`ValueError` before anything is drawn, and valid directions return a
handle, not an error. -/
theorem c1_beamsplitter_direction (t : OpticalTable) (x y size angle : ℝ)
    (colour lp tc : String) (pad : ℝ)
    (hAR : 0 ≤ t.aspect_ratio) (hs : 0 ≤ size) :
    (∀ direction, direction ∉ (["L", "R"] : List String) →
      t.beamsplitter_cube x y size angle direction colour none lp pad tc
        = (t, .error "Allowed values for direction are L and R."))
    ∧ t.beamsplitter_cube x y size angle "L" colour none lp pad tc
        = (⟨t.canvas ++ plate_prims t.aspect_ratio x y size angle colour (size * 0.5)
              ++ [.line (x - size * Real.sqrt 2 / 2 * Tools.cosd (angle + 45) * t.aspect_ratio,
                         y - size * Real.sqrt 2 / 2 * Tools.sind (angle + 45) * t.aspect_ratio)
                        (x + size * Real.sqrt 2 / 2 * Tools.cosd (angle + 45) * t.aspect_ratio,
                         y + size * Real.sqrt 2 / 2 * Tools.sind (angle + 45) * t.aspect_ratio) "k"],
            t.aspect_ratio⟩,
           .ok ⟨x, y, "t", some angle⟩)
    ∧ t.beamsplitter_cube x y size angle "R" colour none lp pad tc
        = (⟨t.canvas ++ plate_prims t.aspect_ratio x y size angle colour (size * 0.5)
              ++ [.line (x - size * Real.sqrt 2 / 2 * Tools.cosd (angle - 45) * t.aspect_ratio,
                         y - size * Real.sqrt 2 / 2 * Tools.sind (angle - 45) * t.aspect_ratio)
                        (x + size * Real.sqrt 2 / 2 * Tools.cosd (angle - 45) * t.aspect_ratio,
                         y + size * Real.sqrt 2 / 2 * Tools.sind (angle - 45) * t.aspect_ratio) "k"],
            t.aspect_ratio⟩,
           .ok ⟨x, y, "t", some angle⟩)
    ∧ seg_length (x - size * Real.sqrt 2 / 2 * Tools.cosd (angle + 45) * t.aspect_ratio,
                  y - size * Real.sqrt 2 / 2 * Tools.sind (angle + 45) * t.aspect_ratio)
                 (x + size * Real.sqrt 2 / 2 * Tools.cosd (angle + 45) * t.aspect_ratio,
                  y + size * Real.sqrt 2 / 2 * Tools.sind (angle + 45) * t.aspect_ratio)
        = size * Real.sqrt 2 * t.aspect_ratio := by
  refine ⟨fun d hd => ?_,
    OpticalTable.beamsplitter_cube_L t x y size angle colour lp tc pad,
    OpticalTable.beamsplitter_cube_R t x y size angle colour lp tc pad,
    angled_seg_length x y (size * Real.sqrt 2) (angle + 45) t.aspect_ratio
      (mul_nonneg hs (Real.sqrt_nonneg 2)) hAR⟩
  unfold OpticalTable.beamsplitter_cube
  rw [if_pos hd]

/-- C1 witness: direction `"X"` fails, and the overlay of a unit
beamsplitter has length `sqrt 2` on the square test table. -/
theorem c1_beamsplitter_direction_witness :
    testTable.beamsplitter_cube 0 0 1 0 "X" "k" none "top" 0.25 "k"
      = (testTable, .error "Allowed values for direction are L and R.") := by
  have h := c1_beamsplitter_direction testTable 0 0 1 0 "k" "top" "k" 0.25
    (by norm_num [testTable]) (by norm_num)
  exact h.1 "X" (by decide)

/-- C1 counterexample: at the concrete call
`beamsplitter_cube 0 0 1 0 "L"` the canvas is not the cube overlaid with a
diagonal at `angle - 45` — the claim's direction mapping is reversed. -/
theorem c1_beamsplitter_direction_cex :
    (testTable.beamsplitter_cube 0 0 1 0 "L" "k" none "top" 0.25 "k").1.canvas
      ≠ (((testTable.transmissive_cube 0 0 1 0 "k" none "top" 0.25 "k").1).angled_line
          0 0 (1 * Real.sqrt 2) (0 - 45) "k" true).1.canvas := by
  intro h
  rw [OpticalTable.beamsplitter_cube_L, OpticalTable.transmissive_cube_none,
    OpticalTable.angled_line_show] at h
  have hsq : Real.sqrt 2 * Real.sqrt 2 = 2 := Real.mul_self_sqrt (by norm_num)
  simp [testTable, plate_prims, List.append_assoc,
    Tools.sind_forty_five, Tools.sind_neg_forty_five,
    Tools.cosd_forty_five, Tools.cosd_neg_forty_five,
    show ((0 : ℝ) + 45) = 45 by norm_num,
    show ((0 : ℝ) - 45) = -45 by norm_num] at h
  nlinarith [h, hsq, Real.sqrt_nonneg 2]

end PyOpticalTable
